import Mathlib

/-!
Verification of `mite` (bredele/mite), a tiny HTTP GET module.

The hand-written code (`src/lib/index.ts`) composes two collaborators:
the undici transport client (`stream`, `Agent`) and the auto-decompress
transform from `deflate-stream` (`deflate()`).  The collaborators are not
part of this repository's sources, so their behavior is modelled from the
specification (§4.1 Auto-Decompress Transform, §6 Transport Client
collaborator contract); the composition glue, agent factory and option
construction are embedded directly from `src/lib/index.ts`.

Bytes are modelled as natural numbers (each byte of a network stream is
below 256), chunks as lists of bytes, and a stream's observable history as
the list of chunks delivered followed by a terminal signal.
-/

namespace Mite

/-- Decompression mode of the transform, chosen once per stream.
Modelled from the spec: states `sniffing`, `gzip-mode`, `deflate-mode`,
`passthrough-mode` (§9 detection-then-dispatch state machine). -/
inductive Mode
  | sniffing
  | gzipMode
  | deflateMode
  | passthrough
  deriving DecidableEq, Repr

/-- Modelled from the spec: transport-level failures of the undici client
(§7 error taxonomy): DNS resolution failure, connection refused/reset, TLS
handshake failure, timeout. -/
inductive TransportError
  | dns
  | connRefused
  | tlsFailure
  | timeout
  deriving DecidableEq, Repr

/-- Terminal error of the output stream: either a transport error
propagated from upstream or a decompression error, kept distinguishable
(§7: "preserve enough information to distinguish the two"). -/
inductive StreamError
  | transport (e : TransportError)
  | decompress (msg : String)
  deriving DecidableEq, Repr

/-- Observable terminal behavior of the output stream: it either ends
normally having emitted exactly `bytes`, or terminates with an error.
The two constructors are the mutually exclusive terminal states of §3. -/
inductive StreamOutcome
  | ended (bytes : List Nat)
  | errored (e : StreamError)
  deriving DecidableEq, Repr

/-- Modelled from the spec: the checksum the decompressor validates; a
malformed compressed payload is one whose check value does not match
(real zlib uses CRC32/Adler32; one byte of redundancy suffices for the
model). -/
def checksum (x : List Nat) : Nat :=
  x.foldl (fun a b => (a + b) % 256) 0

/-- The two gzip magic bytes, 0x1f 0x8b. -/
def gzipMagic : List Nat := [0x1f, 0x8b]

/-- Modelled from the spec: recognized header bytes for zlib/deflate:
first byte 0x78, second byte one of the standard zlib flag bytes. -/
def isZlibPair (b0 b1 : Nat) : Bool :=
  b0 = 0x78 && (b1 = 0x01 || b1 = 0x5e || b1 = 0x9c || b1 = 0xda)

/-- Modelled from the spec: detection policy on the first two bytes, in
priority order: gzip magic, then zlib/deflate header, else passthrough
(§4.1 detection policy). -/
def detectMode (b0 b1 : Nat) : Mode :=
  if b0 = 0x1f && b1 = 0x8b then .gzipMode
  else if isZlibPair b0 b1 then .deflateMode
  else .passthrough

/-- Modelled from the spec: the compressed body format behind a framing
header: the payload bytes followed by a one-byte check value.  Stands for
the DEFLATE bit stream of the external codec, at the level of detail the
spec uses (valid data round-trips, malformed data is detected). -/
def deflateBody (x : List Nat) : List Nat :=
  x ++ [checksum x]

/-- Modelled from the spec: the decompressor for the body behind a
detected framing.  Fails on a truncated stream or on a check-value
mismatch (malformed compressed data), otherwise returns the payload. -/
def inflateRaw (b : List Nat) : Except String (List Nat) :=
  match b.reverse with
  | [] => .error "unexpected end of compressed data"
  | c :: rest =>
      if c = checksum rest.reverse then .ok rest.reverse
      else .error "invalid check value"

/-- Modelled from the spec: a gzip-compressed encoding of `x`
(`compress` of the round-trip law): magic bytes, then the compressed
body. -/
def gzipCompress (x : List Nat) : List Nat :=
  gzipMagic ++ deflateBody x

/-- State of the auto-decompress transform: the chosen mode, the bytes
buffered so far (sniff buffer while undecided, accumulated compressed
bytes once a compressed framing is chosen), and the bytes already emitted
downstream. -/
structure TState where
  mode : Mode
  buf : List Nat
  out : List Nat
  deriving DecidableEq, Repr

/-- Modelled from the spec: the detection step on the bytes buffered so
far.  With fewer than two bytes the transform keeps sniffing; with two or
more it fixes the mode for the rest of the stream, flushing the buffer
downstream on passthrough and keeping it for the decompressor
otherwise. -/
def sniffStep (o b : List Nat) : TState :=
  match b with
  | b0 :: b1 :: _ =>
      match detectMode b0 b1 with
      | .passthrough => ⟨.passthrough, [], o ++ b⟩
      | .sniffing => ⟨.sniffing, b, o⟩
      | m => ⟨m, b, o⟩
  | _ => ⟨.sniffing, b, o⟩

/-- Modelled from the spec: feeding one incoming chunk to the transform.
While sniffing, the chunk joins the sniff buffer and detection is
re-attempted; in passthrough mode the chunk is emitted unchanged; in a
compressed mode the chunk joins the compressed input of the
decompressor. -/
def feed (s : TState) (chunk : List Nat) : TState :=
  match s.mode with
  | .sniffing => sniffStep s.out (s.buf ++ chunk)
  | .passthrough => ⟨.passthrough, s.buf, s.out ++ chunk⟩
  | m => ⟨m, s.buf ++ chunk, s.out⟩

/-- Feeding a list of chunks in order. -/
def feedAll (s : TState) (chunks : List (List Nat)) : TState :=
  chunks.foldl feed s

/-- Initial state of a freshly constructed transform. -/
def startState : TState := ⟨.sniffing, [], []⟩

/-- Modelled from the spec: end-of-stream handling.  An undecided sniff
buffer (fewer bytes than needed for detection) resolves to passthrough
(§7 detection ambiguity); a detected compressed stream is decompressed,
a malformed one terminates with a decompression error. -/
def finish (s : TState) : StreamOutcome :=
  match s.mode with
  | .sniffing => .ended (s.out ++ s.buf)
  | .passthrough => .ended s.out
  | .gzipMode =>
      match inflateRaw (s.buf.drop 2) with
      | .ok x => .ended (s.out ++ x)
      | .error e => .errored (.decompress e)
  | .deflateMode =>
      match inflateRaw (s.buf.drop 2) with
      | .ok x => .ended (s.out ++ x)
      | .error e => .errored (.decompress e)

/-- Terminal signal the upstream source (the transport client's response
body) delivers after its chunks: a normal end, or a transport error. -/
inductive UpSignal
  | upEnd
  | upErr (e : TransportError)
  deriving DecidableEq, Repr

/-- Modelled from the spec: the observable outcome of the transform on a
full upstream history: on a normal upstream end, the result of feeding
every chunk and finishing; an upstream error is propagated downstream as
the terminal error, never swallowed (§4.1 error conditions). -/
def runTransform (chunks : List (List Nat)) (sig : UpSignal) : StreamOutcome :=
  match sig with
  | .upEnd => finish (feedAll startState chunks)
  | .upErr e => .errored (.transport e)

/-- The recognized agent options (README / spec §6). -/
structure AgentOptions where
  connections : Option Nat
  keepAliveTimeout : Option Nat
  keepAliveMaxTimeout : Option Nat
  keepAliveTimeoutThreshold : Option Nat
  pipelining : Option Nat
  headersTimeout : Option Nat
  bodyTimeout : Option Nat
  rejectUnauthorized : Option Bool
  servername : Option String
  deriving DecidableEq, Repr

/-- An undici `Agent`: an opaque pooling handle wrapping its options.
Embeds `new Agent(options)` of `src/lib/index.ts`. -/
structure Agent where
  options : AgentOptions
  deriving DecidableEq, Repr

/-- Embeds the exported `agent` factory of `src/lib/index.ts`:
`(options) => new Agent(options)`. -/
def agent (options : AgentOptions) : Agent := ⟨options⟩

/-- The options object handed to `stream`: the HTTP method and the
optional dispatcher. -/
structure RequestOptions where
  method : String
  dispatcher : Option Agent
  deriving DecidableEq, Repr

/-- Embeds the options construction of `src/lib/index.ts` lines 6-8:
`agent ? { method: "GET", dispatcher: agent } : { method: "GET" }` (an
absent dispatcher field means the client's default pooling behavior). -/
def requestOptions (agentArg : Option Agent) : RequestOptions :=
  match agentArg with
  | some a => { method := "GET", dispatcher := some a }
  | none => { method := "GET", dispatcher := none }

/-- Modelled from the spec: what the transport client does for one
request: either delivers a response (a status code and the body chunks,
delivered regardless of status), or fails with a transport error after
delivering some prior chunks (§6 collaborator contract). -/
inductive TransportResult
  | response (status : Nat) (body : List (List Nat))
  | failure (prior : List (List Nat)) (e : TransportError)
  deriving DecidableEq, Repr

/-- The environment: how the network behaves for a given URL and request
options.  The module under verification is parametric in it. -/
def Transport := String → RequestOptions → TransportResult

/-- The observable effect of one call of the entry point: the options
handed to the transport client, the identity of the stream handed to it
as the destination of the response body, the identity of the stream
returned to the caller, and the eventual outcome on that stream. -/
structure RequestCall where
  options : RequestOptions
  destination : Nat
  returned : Nat
  outcome : StreamOutcome
  deriving DecidableEq, Repr

/-- Embeds the default export of `src/lib/index.ts`: build the options,
construct a fresh deflate transform (`fresh` is its identity, supplied by
the allocator), direct the transport client's response body into it, and
return the very same transform.  The outcome on the returned stream is
the transform run on whatever the transport delivers. -/
def request (env : Transport) (fresh : Nat) (url : String)
    (agentArg : Option Agent) : RequestCall :=
  let options := requestOptions agentArg
  let deflateTransform := fresh
  let outcome :=
    match env url options with
    | .response _ body => runTransform body .upEnd
    | .failure prior e => runTransform prior (.upErr e)
  { options := options, destination := deflateTransform,
    returned := deflateTransform, outcome := outcome }

/-- Holds of a byte sequence with no recognizable compression framing:
either too short for any framing header, or its first two bytes match
neither the gzip magic nor a zlib/deflate header. -/
def noFramingB (f : List Nat) : Bool :=
  match f with
  | b0 :: b1 :: _ => detectMode b0 b1 = .passthrough
  | _ => true

/-- The bytes of the ASCII string "Not Found". -/
def notFoundBody : List Nat := [78, 111, 116, 32, 70, 111, 117, 110, 100]

theorem detectMode_ne_sniffing (b0 b1 : Nat) : detectMode b0 b1 ≠ .sniffing := by
  unfold detectMode
  split
  · simp
  · split <;> simp

theorem feed_gzip (b o c : List Nat) :
    feed ⟨.gzipMode, b, o⟩ c = ⟨.gzipMode, b ++ c, o⟩ := rfl

theorem feed_deflate (b o c : List Nat) :
    feed ⟨.deflateMode, b, o⟩ c = ⟨.deflateMode, b ++ c, o⟩ := rfl

theorem feed_pass (b o c : List Nat) :
    feed ⟨.passthrough, b, o⟩ c = ⟨.passthrough, b, o ++ c⟩ := rfl

theorem feed_sniffing (b o c : List Nat) :
    feed ⟨.sniffing, b, o⟩ c = sniffStep o (b ++ c) := rfl

theorem feedAll_gzip (cs : List (List Nat)) : ∀ b o : List Nat,
    feedAll ⟨.gzipMode, b, o⟩ cs = ⟨.gzipMode, b ++ cs.flatten, o⟩ := by
  induction cs with
  | nil => intro b o; simp [feedAll]
  | cons c cs ih =>
      intro b o
      simp only [feedAll, List.foldl_cons] at ih ⊢
      rw [feed_gzip, ih, List.flatten_cons, List.append_assoc]

theorem feedAll_deflate (cs : List (List Nat)) : ∀ b o : List Nat,
    feedAll ⟨.deflateMode, b, o⟩ cs = ⟨.deflateMode, b ++ cs.flatten, o⟩ := by
  induction cs with
  | nil => intro b o; simp [feedAll]
  | cons c cs ih =>
      intro b o
      simp only [feedAll, List.foldl_cons] at ih ⊢
      rw [feed_deflate, ih, List.flatten_cons, List.append_assoc]

theorem feedAll_pass (cs : List (List Nat)) : ∀ b o : List Nat,
    feedAll ⟨.passthrough, b, o⟩ cs = ⟨.passthrough, b, o ++ cs.flatten⟩ := by
  induction cs with
  | nil => intro b o; simp [feedAll]
  | cons c cs ih =>
      intro b o
      simp only [feedAll, List.foldl_cons] at ih ⊢
      rw [feed_pass, ih, List.flatten_cons, List.append_assoc]

theorem sniffStep_short (o b : List Nat) (h : b.length ≤ 1) :
    sniffStep o b = ⟨.sniffing, b, o⟩ := by
  match b with
  | [] => rfl
  | [x] => rfl
  | x :: y :: rest => simp at h

theorem sniffStep_gzip (o rest : List Nat) :
    sniffStep o (0x1f :: 0x8b :: rest) = ⟨.gzipMode, 0x1f :: 0x8b :: rest, o⟩ := rfl

theorem finish_gzip (b o : List Nat) :
    finish ⟨.gzipMode, b, o⟩ =
      match inflateRaw (b.drop 2) with
      | .ok x => .ended (o ++ x)
      | .error e => .errored (.decompress e) := rfl

/-- Characterization of the transform's state machine: from a sniffing
state whose buffer is still too short to decide, feeding any chunk list
leaves exactly the state that one detection step on all bytes gives. -/
theorem feedAll_sniff (cs : List (List Nat)) : ∀ b o : List Nat, b.length ≤ 1 →
    feedAll ⟨.sniffing, b, o⟩ cs = sniffStep o (b ++ cs.flatten) := by
  induction cs with
  | nil =>
      intro b o h
      simp only [feedAll, List.foldl_nil, List.flatten_nil, List.append_nil]
      exact (sniffStep_short o b h).symm
  | cons c cs ih =>
      intro b o h
      simp only [feedAll, List.foldl_cons, feed_sniffing, List.flatten_cons]
      rcases hbc : b ++ c with _ | ⟨b0, rest1⟩
      · rw [sniffStep_short o [] (by simp)]
        have := ih [] o (by simp)
        simp only [feedAll] at this
        rw [this]
        have hb : b ++ (c ++ cs.flatten) = cs.flatten := by
          rw [← List.append_assoc, hbc]; rfl
        rw [hb]; rfl
      · rcases rest1 with _ | ⟨b1, rest⟩
        · rw [sniffStep_short o [b0] (by simp)]
          have := ih [b0] o (by simp)
          simp only [feedAll] at this
          rw [this]
          have hb : b ++ (c ++ cs.flatten) = b0 :: cs.flatten := by
            rw [← List.append_assoc, hbc]; rfl
          rw [hb]; rfl
        · have hb : b ++ (c ++ cs.flatten) = b0 :: b1 :: (rest ++ cs.flatten) := by
            rw [← List.append_assoc, hbc]; rfl
          rw [hb]
          rcases hd : detectMode b0 b1 with _ | _ | _ | _
          · exact absurd hd (detectMode_ne_sniffing b0 b1)
          · simp only [sniffStep, hd]
            have := feedAll_gzip cs (b0 :: b1 :: rest) o
            simp only [feedAll] at this
            rw [this]; rfl
          · simp only [sniffStep, hd]
            have := feedAll_deflate cs (b0 :: b1 :: rest) o
            simp only [feedAll] at this
            rw [this]; rfl
          · simp only [sniffStep, hd]
            have := feedAll_pass cs [] (o ++ (b0 :: b1 :: rest))
            simp only [feedAll] at this
            rw [this, List.append_assoc]; rfl

/-- The observable outcome of the transform on a normal upstream end
depends only on the concatenation of the incoming chunks. -/
theorem runTransform_upEnd (cs : List (List Nat)) :
    runTransform cs .upEnd = finish (sniffStep [] cs.flatten) := by
  have h := feedAll_sniff cs [] [] (by simp)
  simp only [List.nil_append] at h
  show finish (feedAll startState cs) = _
  rw [show startState = (⟨.sniffing, [], []⟩ : TState) from rfl, h]

/-- The modelled decompressor inverts the modelled compressed-body
format. -/
theorem inflateRaw_ok (x : List Nat) :
    inflateRaw (x ++ [checksum x]) = .ok x := by
  simp [inflateRaw, List.reverse_append]

/-- Claim C1: every failure of the transport client (DNS, connection
refused, TLS, timeout) is delivered as the terminal error event on the
stream `request` returns — regardless of URL, agent configuration, or
chunks delivered before the failure — and is never swallowed; the entry
point itself still returns the stream rather than throwing. -/
theorem transport_failure_becomes_stream_error
    (env : Transport) (fresh : Nat) (url : String) (agentArg : Option Agent)
    (prior : List (List Nat)) (e : TransportError)
    (h : env url (requestOptions agentArg) = .failure prior e) :
    (request env fresh url agentArg).outcome = .errored (.transport e) := by
  simp [request, h, runTransform]

theorem transport_failure_witness :
    ((fun _ _ => TransportResult.failure [] .dns : Transport) "https://a.dev"
        (requestOptions none) = .failure [] .dns) ∧
    (request (fun _ _ => .failure [] .dns) 0 "https://a.dev" none).outcome
      = .errored (.transport .dns) :=
  ⟨rfl, transport_failure_becomes_stream_error _ 0 "https://a.dev" none [] .dns rfl⟩

/-- Claim C2: `request` constructs the output stream at call time and
returns it synchronously: the returned stream is exactly the freshly
allocated transform, and its identity is independent of anything the
transport (the network) does — data only arrives on it later, as the
outcome. -/
theorem request_returns_stream_synchronously
    (fresh : Nat) (url : String) (agentArg : Option Agent)
    (env env' : Transport) :
    (request env fresh url agentArg).returned = fresh ∧
    (request env fresh url agentArg).returned
      = (request env' fresh url agentArg).returned :=
  ⟨rfl, rfl⟩

/-- Claim C3: if the server serves a gzip-compressed body, then whatever
the chunking of the wire bytes, the stream returned by `request` ends
normally having emitted exactly the original uncompressed bytes
(round-trip law). -/
theorem gzip_roundtrip
    (fresh : Nat) (url : String) (agentArg : Option Agent)
    (status : Nat) (body : List (List Nat)) (x : List Nat)
    (h : body.flatten = gzipCompress x) :
    (request (fun _ _ => .response status body) fresh url agentArg).outcome
      = .ended x := by
  show runTransform body .upEnd = .ended x
  rw [runTransform_upEnd, h]
  rw [show gzipCompress x = 0x1f :: 0x8b :: (x ++ [checksum x]) from rfl]
  rw [sniffStep_gzip, finish_gzip]
  rw [show ((0x1f : Nat) :: 0x8b :: (x ++ [checksum x])).drop 2
        = x ++ [checksum x] from rfl]
  rw [inflateRaw_ok]
  simp

theorem gzip_roundtrip_witness :
    ([gzipCompress [7, 9]] : List (List Nat)).flatten = gzipCompress [7, 9] ∧
    (request (fun _ _ => .response 200 [gzipCompress [7, 9]]) 0 "https://a.dev"
        none).outcome = .ended [7, 9] :=
  ⟨by simp, gzip_roundtrip 0 "https://a.dev" none 200 [gzipCompress [7, 9]]
      [7, 9] (by simp)⟩

/-- Claim C4: on input with no recognizable compression framing, the
transform is an exact passthrough: for every partition of the input into
chunks (one chunk or many, of any sizes), the stream ends normally with
output byte-identical to the input. -/
theorem passthrough_identity (cs : List (List Nat))
    (h : noFramingB cs.flatten = true) :
    runTransform cs .upEnd = .ended cs.flatten := by
  rw [runTransform_upEnd]
  rcases hf : cs.flatten with _ | ⟨b0, _ | ⟨b1, rest⟩⟩
  · rfl
  · rfl
  · rw [hf] at h
    have hd : detectMode b0 b1 = .passthrough := by
      simpa [noFramingB] using h
    simp [sniffStep, hd, finish]

theorem passthrough_identity_witness :
    noFramingB ([[72], [], [105, 33]] : List (List Nat)).flatten = true ∧
    runTransform [[72], [], [105, 33]] .upEnd = .ended [72, 105, 33] := by
  refine ⟨by decide, ?_⟩
  have := passthrough_identity [[72], [], [105, 33]] (by decide)
  simpa using this

/-- Claim C5: chunking invariance — two partitions of the same byte
sequence into chunks give the transform the same final outcome (same
concatenated decompressed output, same terminal signal). -/
theorem chunking_invariance (cs1 cs2 : List (List Nat))
    (h : cs1.flatten = cs2.flatten) :
    runTransform cs1 .upEnd = runTransform cs2 .upEnd := by
  rw [runTransform_upEnd, runTransform_upEnd, h]

theorem chunking_invariance_witness :
    ([[0x1f], [0x8b, 7], [], [9, 16]] : List (List Nat)).flatten
      = ([[0x1f, 0x8b, 7, 9, 16]] : List (List Nat)).flatten ∧
    runTransform [[0x1f], [0x8b, 7], [], [9, 16]] .upEnd
      = runTransform [[0x1f, 0x8b, 7, 9, 16]] .upEnd :=
  ⟨by decide,
   chunking_invariance [[0x1f], [0x8b, 7], [], [9, 16]]
     [[0x1f, 0x8b, 7, 9, 16]] (by decide)⟩

/-- Claim C6: a non-2xx status code alone never makes the returned
stream error: the outcome is exactly the transform run on the body
chunks, whatever the status; in particular a 404 whose body is the plain
text "Not Found" ends normally with exactly those bytes. -/
theorem status_code_not_an_error (fresh : Nat) (url : String)
    (agentArg : Option Agent) (status : Nat) (body : List (List Nat)) :
    (request (fun _ _ => .response status body) fresh url agentArg).outcome
      = runTransform body .upEnd ∧
    (request (fun _ _ => .response 404 [notFoundBody]) fresh url
        agentArg).outcome = .ended notFoundBody := by
  refine ⟨rfl, ?_⟩
  show runTransform [notFoundBody] .upEnd = .ended notFoundBody
  decide

/-- Claim C7: once a compressed framing has been detected at the head of
the input, malformed compressed data terminates the stream with a
decompression error — never a normal end with partial or garbage data,
never a silent passthrough. -/
theorem malformed_after_framing_errors (cs : List (List Nat))
    (b0 b1 : Nat) (rest : List Nat) (e : String)
    (hf : cs.flatten = b0 :: b1 :: rest)
    (hm : detectMode b0 b1 = .gzipMode ∨ detectMode b0 b1 = .deflateMode)
    (he : inflateRaw rest = .error e) :
    runTransform cs .upEnd = .errored (.decompress e) := by
  rw [runTransform_upEnd, hf]
  rcases hm with hm | hm <;> simp [sniffStep, hm, finish, he]

theorem malformed_after_framing_witness :
    ([[0x1f, 0x8b, 5]] : List (List Nat)).flatten = 0x1f :: 0x8b :: [5] ∧
    (detectMode 0x1f 0x8b = .gzipMode ∨ detectMode 0x1f 0x8b = .deflateMode) ∧
    inflateRaw [5] = .error "invalid check value" ∧
    runTransform [[0x1f, 0x8b, 5]] .upEnd
      = .errored (.decompress "invalid check value") :=
  ⟨by decide, Or.inl rfl, rfl,
   malformed_after_framing_errors [[0x1f, 0x8b, 5]] 0x1f 0x8b [5]
     "invalid check value" (by decide) (Or.inl rfl) rfl⟩

/-- Claim C8: each call of `request` returns exactly one output stream
(the one fresh transform), and that stream's terminal state is exactly
one of normal end and error: the two are mutually exclusive, so the
terminal signal is reported once. -/
theorem terminal_state_exclusive (env : Transport) (fresh : Nat)
    (url : String) (agentArg : Option Agent) :
    (request env fresh url agentArg).returned = fresh ∧
    (((∃ bs, (request env fresh url agentArg).outcome = .ended bs) ∧
        ¬ ∃ e, (request env fresh url agentArg).outcome = .errored e) ∨
      ((∃ e, (request env fresh url agentArg).outcome = .errored e) ∧
        ¬ ∃ bs, (request env fresh url agentArg).outcome = .ended bs)) := by
  refine ⟨rfl, ?_⟩
  rcases h : (request env fresh url agentArg).outcome with bs | e
  · exact Or.inl ⟨⟨bs, rfl⟩, fun ⟨e, he⟩ => StreamOutcome.noConfusion he⟩
  · exact Or.inr ⟨⟨e, rfl⟩, fun ⟨bs, he⟩ => StreamOutcome.noConfusion he⟩

/-- Claim C9: the options `request` hands to the transport client always
carry the HTTP method GET, and carry the supplied agent as the
dispatcher exactly when one was supplied (no dispatcher — the client's
default pooling — otherwise). -/
theorem method_is_get_and_agent_forwarded (env : Transport) (fresh : Nat)
    (url : String) (agentArg : Option Agent) :
    (request env fresh url agentArg).options.method = "GET" ∧
    (request env fresh url agentArg).options.dispatcher = agentArg := by
  cases agentArg <;> exact ⟨rfl, rfl⟩

/-- Claim C10: the stream returned to the caller is the very transform
handed to the transport client as the destination of the response body,
and two calls with distinct freshly allocated transforms return distinct
streams. -/
theorem returned_stream_is_destination (env : Transport) (fresh : Nat)
    (url : String) (agentArg : Option Agent) :
    (request env fresh url agentArg).returned
      = (request env fresh url agentArg).destination ∧
    ∀ (env' : Transport) (fresh' : Nat) (url' : String)
      (agentArg' : Option Agent), fresh ≠ fresh' →
      (request env fresh url agentArg).returned
        ≠ (request env' fresh' url' agentArg').returned :=
  ⟨rfl, fun _ _ _ _ hne => hne⟩

theorem returned_stream_is_destination_witness :
    ((request (fun _ _ => .response 200 []) 0 "https://a.dev" none).returned
       = (request (fun _ _ => .response 200 []) 0 "https://a.dev"
           none).destination) ∧
    (0 : Nat) ≠ 1 ∧
    (request (fun _ _ => .response 200 []) 0 "https://a.dev" none).returned
      ≠ (request (fun _ _ => .response 200 []) 1 "https://a.dev" none).returned :=
  ⟨(returned_stream_is_destination (fun _ _ => .response 200 []) 0
      "https://a.dev" none).1,
   by decide,
   (returned_stream_is_destination (fun _ _ => .response 200 []) 0
      "https://a.dev" none).2 (fun _ _ => .response 200 []) 1 "https://a.dev"
      none (by decide)⟩

end Mite
